import Mathlib

/-!
Verification of the Canvas accessibility-checker backend (src/app.py)
against its natural-language specification.

The first part embeds the Flask handlers and helper functions of
src/app.py as pure Lean functions; ambient inputs of a handler (the
session's stored `course_id`/`user_id`, the JSON request body, the
current UTC time consumed by `datetime.utcnow()`) become explicit
parameters.  The second part models, from the specification, the scan
engine that the source only stubs out.
-/

/-- Scan options dictionary built at src/app.py lines 126-131. -/
structure ScanOptions where
  pages : Bool
  assignments : Bool
  announcements : Bool
  modules : Bool
deriving DecidableEq

/-- One entry of the `issues` list returned by `perform_accessibility_scan`
(src/app.py lines 268-277); field names follow the dict keys. -/
structure ScanIssue where
  type : String
  title : String
  description : String
  location : String
  wcagLevel : String
  wcagCriteria : String
deriving DecidableEq

/-- The dict returned by `perform_accessibility_scan` (src/app.py lines 264-279). -/
structure ScanResults where
  passed : Nat
  warnings : Nat
  errors : Nat
  issues : List ScanIssue
  timestamp : String
deriving DecidableEq

/-- Placeholder scan implementation, src/app.py lines 253-279.  The call
`datetime.utcnow().isoformat()` is embedded as the explicit parameter
`now`: the ambient clock reading at the moment of the run. -/
def perform_accessibility_scan (course_id : String) (options : ScanOptions)
    (now : String) : ScanResults :=
  { passed := 127
    warnings := 8
    errors := 3
    issues := [
      { type := "error"
        title := "Missing Alt Text on Images"
        description := "Images must have alternative text for screen readers."
        location := "Page: \"Course Introduction\""
        wcagLevel := "A"
        wcagCriteria := "1.1.1" } ]
    timestamp := now }

/-- JSON body of `POST /api/scan`: every key is optional, `data.get` supplies
the defaults (src/app.py lines 119-131). -/
structure ScanRequestBody where
  courseId : Option String
  pages : Option Bool
  assignments : Option Bool
  announcements : Option Bool
  modules : Option Bool
deriving DecidableEq

/-- Python truthiness of an optional string: `None` and `""` are falsy. -/
def truthy : Option String → Bool
  | none => false
  | some s => if s = "" then false else true

/-- The expression `session.get('course_id') or data.get('courseId')`
at src/app.py line 120: the session value when truthy, else the body value. -/
def effective_course_id (session_course_id : Option String)
    (data : ScanRequestBody) : Option String :=
  if truthy session_course_id then session_course_id else data.courseId

/-- Scan options with defaults, src/app.py lines 126-131. -/
def scan_options_of (data : ScanRequestBody) : ScanOptions :=
  { pages := data.pages.getD true
    assignments := data.assignments.getD true
    announcements := data.announcements.getD true
    modules := data.modules.getD false }

/-- Responses of the `POST /api/scan` handler: HTTP 200 with the scan
results, or HTTP 400 with an `error` message (src/app.py lines 122-138). -/
inductive ScanResponse
  | ok (results : ScanResults)
  | badRequest (message : String)
deriving DecidableEq

/-- Handler `run_accessibility_scan` for `POST /api/scan`, src/app.py
lines 104-142: resolve the course id (session value first, body value as
fallback), reject with 400 when it is falsy, otherwise run
`perform_accessibility_scan` synchronously and return its result. -/
def run_accessibility_scan (session_course_id : Option String)
    (data : ScanRequestBody) (now : String) : ScanResponse :=
  match effective_course_id session_course_id data with
  | none => .badRequest "Course ID required"
  | some cid =>
      if cid = "" then .badRequest "Course ID required"
      else .ok (perform_accessibility_scan cid (scan_options_of data) now)

/-- Body returned by `GET /api/scan/<scan_id>`, src/app.py lines 151-155;
the empty `results` dict is embedded as an empty association list. -/
structure ScanLookupBody where
  scan_id : String
  status : String
  results : List (String × String)
deriving DecidableEq

/-- Handler `get_scan_results`, src/app.py lines 145-161: for any scan id
it returns HTTP 200 with a fixed body of status `completed`. -/
def get_scan_results (scan_id : String) : Nat × ScanLookupBody :=
  (200, { scan_id := scan_id, status := "completed", results := [] })

/-- Helper `generate_report`, src/app.py lines 282-285. -/
def generate_report (scan_id : String) (format_type : String) : String :=
  "/downloads/report_" ++ scan_id ++ "." ++ format_type

/-- JSON body of `POST /api/export/<scan_id>`: the `format` key is optional,
defaulted to `"pdf"` (src/app.py line 169). -/
structure ExportRequestBody where
  format : Option String
deriving DecidableEq

/-- Success body of `POST /api/export/<scan_id>`, src/app.py lines 174-177. -/
structure ExportResponseBody where
  success : Bool
  download_url : String
deriving DecidableEq

/-- Handler `export_report`, src/app.py lines 164-181: builds the download
URL with `generate_report` and returns HTTP 200 with `success = true`. -/
def export_report (scan_id : String) (data : ExportRequestBody) :
    Nat × ExportResponseBody :=
  (200, { success := true
          download_url := generate_report scan_id (data.format.getD "pdf") })

/-- Settings dict of src/app.py lines 291-298. -/
structure Settings where
  scanDepth : String
  wcagLevel : String
  emailNotifications : Bool
  autoScan : Bool
  reportFormat : String
  includeScreenshots : Bool
deriving DecidableEq

/-- Helper `get_user_settings`, src/app.py lines 288-298: returns the
hard-coded defaults for every user. -/
def get_user_settings (user_id : String) : Settings :=
  { scanDepth := "standard"
    wcagLevel := "AA"
    emailNotifications := false
    autoScan := false
    reportFormat := "pdf"
    includeScreenshots := false }

/-- Helper `save_user_settings`, src/app.py lines 301-305: its body is a
bare `pass` after a log line, so it stores nothing and returns nothing. -/
def save_user_settings (user_id : String) (settings : Settings) : Unit := ()

/-!
Specification model of the scan engine.  The source stubs out the actual
fetch/normalize/evaluate pipeline (`perform_accessibility_scan` says
"implement your scanning logic here"), so the engine's internal behavior
is modelled from spec.md sections 4.2, 4.3, 6 and 7.
-/

/-- Modelled from the spec: WCAG conformance levels A, AA, AAA (section 3,
Issue record), missing from src/ where levels are bare strings in
placeholder data. -/
inductive WcagLevel
  | A
  | AA
  | AAA
deriving DecidableEq

/-- Modelled from the spec: issue severities `error` and `warning`
(section 3), missing from src/. -/
inductive Severity
  | error
  | warning
deriving DecidableEq

/-- Strictness rank of a WCAG level, used for the `wcagLevel` setting
filter of spec section 6 ("rules above the configured level are skipped"). -/
def WcagLevel.rank : WcagLevel → Nat
  | .A => 1
  | .AA => 2
  | .AAA => 3

/-- Modelled from the spec: the Issue record of section 3, missing from
src/ (the placeholder uses a different ad-hoc dict). -/
structure SpecIssue where
  ruleId : String
  severity : Severity
  wcagCriterion : String
  wcagLevel : WcagLevel
  message : String
  contentItemId : String
  locationHint : String
deriving DecidableEq

/-- Modelled from the spec: a node of a StructuralDocument (section 3),
missing from src/; only the shape matters for the claims proved here. -/
inductive DocNode
  | image (altText : Option String)
  | heading (level : Nat) (text : String)
  | link (text : String)
  | textRun (text : String)
deriving DecidableEq

/-- Modelled from the spec: a StructuralDocument is a sequence of typed
nodes (section 3). -/
abbrev StructuralDocument := List DocNode

/-- Modelled from the spec: an issue as a rule emits it, before the engine
stamps the rule's static metadata onto it (section 4.2: "Each rule declares
its WCAG criterion and level statically"). -/
structure ProtoIssue where
  severity : Severity
  message : String
  locationHint : String
deriving DecidableEq

/-- Modelled from the spec: a registered rule of the Rule Engine
(section 4.2), missing from src/.  `eval` may fault internally, which the
model renders as `Except.error` with a diagnostic message. -/
structure WcagRule where
  id : String
  wcagCriterion : String
  wcagLevel : WcagLevel
  eval : StructuralDocument → Except String (List ProtoIssue)

/-- Modelled from the spec: a fetched ContentItem (section 3); only the
fields the orchestrator claims need. -/
structure ContentItem where
  id : String
  rawHtml : String
deriving DecidableEq

/-- Modelled from the spec: the per-item outcome of the Content Fetcher
(sections 5 and 7): either the item arrived, or its fetch failed or
timed out. -/
inductive ItemOutcome
  | fetchFailed (itemId : String)
  | fetched (item : ContentItem)
deriving DecidableEq

/-- Modelled from the spec: the `error`-severity Issue recorded for a
content item whose fetch failed (section 4.3, ruleId = "fetch-failure"). -/
def fetchFailureIssue (itemId : String) : SpecIssue :=
  { ruleId := "fetch-failure"
    severity := .error
    wcagCriterion := ""
    wcagLevel := .A
    message := "content fetch failed"
    contentItemId := itemId
    locationHint := "" }

/-- Modelled from the spec: the `error`-severity Issue recorded for a
content item whose raw HTML could not be parsed (section 4.3,
ruleId = "parse-failure"). -/
def parseFailureIssue (itemId diagnostic : String) : SpecIssue :=
  { ruleId := "parse-failure"
    severity := .error
    wcagCriterion := ""
    wcagLevel := .A
    message := diagnostic
    contentItemId := itemId
    locationHint := "" }

/-- Modelled from the spec: the synthetic `warning`-severity Issue the
engine converts a per-rule internal fault into (section 4.2: it carries
the rule's id and a diagnostic message). -/
def ruleFaultIssue (r : WcagRule) (itemId diagnostic : String) : SpecIssue :=
  { ruleId := r.id
    severity := .warning
    wcagCriterion := r.wcagCriterion
    wcagLevel := r.wcagLevel
    message := diagnostic
    contentItemId := itemId
    locationHint := "" }

/-- Modelled from the spec: running one rule on one document (section 4.2).
A normal result is stamped with the rule's static id, criterion and level;
an internal fault is caught and converted into one synthetic warning
Issue, never propagated. -/
def runRule (r : WcagRule) (itemId : String) (doc : StructuralDocument) :
    List SpecIssue :=
  match r.eval doc with
  | .error diagnostic => [ruleFaultIssue r itemId diagnostic]
  | .ok protos =>
      protos.map fun p =>
        { ruleId := r.id
          severity := p.severity
          wcagCriterion := r.wcagCriterion
          wcagLevel := r.wcagLevel
          message := p.message
          contentItemId := itemId
          locationHint := p.locationHint }

/-- Modelled from the spec: the engine runs all registered rules against a
document in registration order and concatenates the results (section 4.2). -/
def runRules (rules : List WcagRule) (itemId : String)
    (doc : StructuralDocument) : List SpecIssue :=
  rules.flatMap fun r => runRule r itemId doc

/-- Modelled from the spec: the `wcagLevel` setting filter of section 6 —
rules above the configured level are skipped. -/
def activeRules (cfg : WcagLevel) (rules : List WcagRule) : List WcagRule :=
  rules.filter fun r => r.wcagLevel.rank ≤ cfg.rank

/-- Modelled from the spec: the orchestrator's handling of one content
item (section 4.3): a fetch failure becomes one fetch-failure Issue, a
normalization failure becomes one parse-failure Issue, and an item that
normalizes is evaluated by the Rule Engine; every outcome is data, never
an exception. -/
def processItem (normalize : String → Except String StructuralDocument)
    (rules : List WcagRule) (outcome : ItemOutcome) : List SpecIssue :=
  match outcome with
  | .fetchFailed itemId => [fetchFailureIssue itemId]
  | .fetched item =>
      match normalize item.rawHtml with
      | .error diagnostic => [parseFailureIssue item.id diagnostic]
      | .ok doc => runRules rules item.id doc

/-- Modelled from the spec: one scan run over the sequence of item
outcomes the Content Fetcher produced, with the rules active at the
configured WCAG level (sections 4.3 and 6).  The result type is a plain
issue list: item-level and rule-level faults can only surface as data. -/
def runScan (normalize : String → Except String StructuralDocument)
    (cfg : WcagLevel) (rules : List WcagRule)
    (outcomes : List ItemOutcome) : List SpecIssue :=
  outcomes.flatMap (processItem normalize (activeRules cfg rules))

/-!
Concrete instances used by witnesses: a small normalizer, items and rules.
-/

/-- Demo normalizer: parses two known fragments and rejects anything else,
exercising both the success and the `MalformedContentError` paths of the
spec's Document Normalizer contract (spec section 4.1). -/
def demoNormalize : String → Except String StructuralDocument :=
  fun s =>
    if s = "<p>ok</p>" then .ok [.textRun "ok"]
    else if s = "<img>" then .ok [.image none]
    else .error "unparseable html"

/-- Demo content item that normalizes cleanly. -/
def demoItem : ContentItem := { id := "page-1", rawHtml := "<p>ok</p>" }

/-- Demo content item whose raw HTML the demo normalizer rejects. -/
def badItem : ContentItem := { id := "page-2", rawHtml := "<p" }

/-- Demo content item containing an image with no alt text. -/
def imgItem : ContentItem := { id := "page-3", rawHtml := "<img>" }

/-- Demo level-A rule: fires once per image node lacking alt text
(spec section 4.2, MissingAltText). -/
def altTextRule : WcagRule :=
  { id := "missing-alt-text"
    wcagCriterion := "1.1.1"
    wcagLevel := .A
    eval := fun doc =>
      .ok ((doc.filter fun n =>
              match n with
              | .image none => true
              | _ => false).map fun _ =>
            { severity := .error
              message := "image missing alt text"
              locationHint := "" }) }

/-- Demo level-AA rule: fires on every document
(spec section 4.2, LowContrastText). -/
def contrastRule : WcagRule :=
  { id := "low-contrast-text"
    wcagCriterion := "1.4.3"
    wcagLevel := .AA
    eval := fun _ =>
      .ok [{ severity := .warning
             message := "low contrast text"
             locationHint := "" }] }

/-- Demo rule whose evaluation always faults internally. -/
def faultyRule : WcagRule :=
  { id := "heading-order-skipped"
    wcagCriterion := "1.3.1"
    wcagLevel := .A
    eval := fun _ => .error "internal fault" }

/-- C1: item-level faults (fetch or parse failures) and rule-level faults
are contained and converted into Issue records in the scan's result data
and never propagated to the caller; a single item's (or rule's) failure
contributes exactly one failure Issue while the rest of the scan is
unaffected.  (`runScan` and `runRules` are total functions into issue
lists, so no exception can escape.) -/
theorem scan_fault_containment :
    ∀ (normalize : String → Except String StructuralDocument)
      (cfg : WcagLevel) (rules : List WcagRule),
      (∀ (pre post : List ItemOutcome) (itemId : String),
        runScan normalize cfg rules (pre ++ [.fetchFailed itemId] ++ post)
          = runScan normalize cfg rules pre ++ [fetchFailureIssue itemId]
            ++ runScan normalize cfg rules post) ∧
      (∀ (pre post : List ItemOutcome) (item : ContentItem) (diagnostic : String),
        normalize item.rawHtml = .error diagnostic →
        runScan normalize cfg rules (pre ++ [.fetched item] ++ post)
          = runScan normalize cfg rules pre
            ++ [parseFailureIssue item.id diagnostic]
            ++ runScan normalize cfg rules post) ∧
      (∀ (rs1 rs2 : List WcagRule) (r : WcagRule) (itemId : String)
         (doc : StructuralDocument) (diagnostic : String),
        r.eval doc = .error diagnostic →
        runRules (rs1 ++ [r] ++ rs2) itemId doc
          = runRules rs1 itemId doc ++ [ruleFaultIssue r itemId diagnostic]
            ++ runRules rs2 itemId doc) := by
  intro normalize cfg rules
  refine ⟨?_, ?_, ?_⟩
  · intro pre post itemId
    simp [runScan, List.flatMap_append, processItem]
  · intro pre post item diagnostic h
    simp [runScan, List.flatMap_append, processItem, h]
  · intro rs1 rs2 r itemId doc diagnostic h
    simp [runRules, List.flatMap_append, runRule, h]

/-- Witness for C1 at concrete inputs: a failed fetch, an unparseable item
and a faulting rule each yield exactly one failure Issue without
disturbing the rest of the scan. -/
theorem scan_fault_containment_witness :
    (runScan demoNormalize .A [altTextRule]
        ([.fetched demoItem] ++ [.fetchFailed "page-9"] ++ [.fetched demoItem])
      = runScan demoNormalize .A [altTextRule] [.fetched demoItem]
        ++ [fetchFailureIssue "page-9"]
        ++ runScan demoNormalize .A [altTextRule] [.fetched demoItem]) ∧
    (runScan demoNormalize .A [altTextRule]
        ([.fetched demoItem] ++ [.fetched badItem] ++ [.fetched imgItem])
      = runScan demoNormalize .A [altTextRule] [.fetched demoItem]
        ++ [parseFailureIssue badItem.id "unparseable html"]
        ++ runScan demoNormalize .A [altTextRule] [.fetched imgItem]) ∧
    (runRules ([altTextRule] ++ [faultyRule] ++ [contrastRule]) "page-1" []
      = runRules [altTextRule] "page-1" []
        ++ [ruleFaultIssue faultyRule "page-1" "internal fault"]
        ++ runRules [contrastRule] "page-1" []) :=
  ⟨(scan_fault_containment demoNormalize .A [altTextRule]).1
      [.fetched demoItem] [.fetched demoItem] "page-9",
   (scan_fault_containment demoNormalize .A [altTextRule]).2.1
      [.fetched demoItem] [.fetched imgItem] badItem "unparseable html" rfl,
   (scan_fault_containment demoNormalize .A [altTextRule]).2.2
      [altTextRule] [contrastRule] faultyRule "page-1" [] "internal fault" rfl⟩

/-- Every issue `runRule` emits carries the rule's statically declared
WCAG level (spec section 4.2). -/
theorem mem_runRule_level {r : WcagRule} {itemId : String}
    {doc : StructuralDocument} {i : SpecIssue}
    (h : i ∈ runRule r itemId doc) : i.wcagLevel = r.wcagLevel := by
  unfold runRule at h
  cases heq : r.eval doc with
  | error diagnostic =>
      rw [heq] at h
      simp only [List.mem_singleton] at h
      subst h
      rfl
  | ok protos =>
      rw [heq] at h
      simp only [List.mem_map] at h
      obtain ⟨p, _, rfl⟩ := h
      rfl

/-- A rule active under the `wcagLevel = A` setting is itself a level-A
rule (spec section 6: rules above the configured level are skipped). -/
theorem mem_activeRules_A {rules : List WcagRule} {r : WcagRule}
    (h : r ∈ activeRules .A rules) : r.wcagLevel = .A := by
  have hrank := of_decide_eq_true (List.mem_filter.mp h).2
  cases hr : r.wcagLevel with
  | A => rfl
  | AA => rw [hr] at hrank; exact absurd hrank (by decide)
  | AAA => rw [hr] at hrank; exact absurd hrank (by decide)

/-- Every issue `processItem` produces is either a failure record (carrying
level A) or carries the level of one of the supplied rules. -/
theorem mem_processItem_level
    {normalize : String → Except String StructuralDocument}
    {rules : List WcagRule} {outcome : ItemOutcome} {i : SpecIssue}
    (h : i ∈ processItem normalize rules outcome) :
    i.wcagLevel = .A ∨ ∃ r ∈ rules, i.wcagLevel = r.wcagLevel := by
  unfold processItem at h
  cases outcome with
  | fetchFailed itemId =>
      simp only [List.mem_singleton] at h
      subst h
      exact Or.inl rfl
  | fetched item =>
      dsimp only at h
      cases heq : normalize item.rawHtml with
      | error diagnostic =>
          rw [heq] at h
          simp only [List.mem_singleton] at h
          subst h
          exact Or.inl rfl
      | ok doc =>
          rw [heq] at h
          unfold runRules at h
          obtain ⟨r, hr, hmem⟩ := List.mem_flatMap.mp h
          exact Or.inr ⟨r, hr, mem_runRule_level hmem⟩

/-- C6: a scan run with the setting `wcagLevel = "A"` produces no issue
whose `wcagLevel` is `AA` or `AAA`, for any normalizer, any registered
rule set (including rules above level A that would otherwise fire) and
any fetched content. -/
theorem wcag_level_A_excludes :
    ∀ (normalize : String → Except String StructuralDocument)
      (rules : List WcagRule) (outcomes : List ItemOutcome) (i : SpecIssue),
      i ∈ runScan normalize .A rules outcomes →
      i.wcagLevel ≠ .AA ∧ i.wcagLevel ≠ .AAA := by
  intro normalize rules outcomes i hi
  unfold runScan at hi
  obtain ⟨o, _, hmem⟩ := List.mem_flatMap.mp hi
  rcases mem_processItem_level hmem with h | ⟨r, hr, h⟩
  · rw [h]
    exact ⟨by decide, by decide⟩
  · rw [h, mem_activeRules_A hr]
    exact ⟨by decide, by decide⟩
/-- Witness for C6 at concrete inputs: with an AA rule registered that
fires on every document, a level-A scan of an image without alt text
still yields the level-A alt-text issue, and that issue is neither AA
nor AAA. -/
theorem wcag_level_A_excludes_witness :
    { ruleId := "missing-alt-text", severity := .error
      wcagCriterion := "1.1.1", wcagLevel := .A
      message := "image missing alt text", contentItemId := "page-3"
      locationHint := "" }
      ∈ runScan demoNormalize .A [altTextRule, contrastRule]
          [.fetched imgItem] ∧
    ({ ruleId := "missing-alt-text", severity := .error
       wcagCriterion := "1.1.1", wcagLevel := .A
       message := "image missing alt text", contentItemId := "page-3"
       locationHint := "" } : SpecIssue).wcagLevel ≠ .AA :=
  ⟨by decide,
   (wcag_level_A_excludes demoNormalize [altTextRule, contrastRule]
      [.fetched imgItem] _ (by decide)).1⟩

/-- C2: the `POST /api/scan` handler is not non-blocking — its HTTP 200
response body is exactly the completed output of
`perform_accessibility_scan`, computed synchronously inside the handler;
no scanId and no status=running record exist (the `ScanResults` body has
no such fields). -/
theorem scan_response_carries_completed_results :
    run_accessibility_scan none
      { courseId := some "12345", pages := none, assignments := none,
        announcements := none, modules := none } "2026-10-12T00:00:00"
      = ScanResponse.ok (perform_accessibility_scan "12345"
          { pages := true, assignments := true, announcements := true,
            modules := false } "2026-10-12T00:00:00") := by
  decide

/-- C3: the scan result returned for any request violates the counts
invariant — `counts.errors = 3` and `counts.warnings = 8` are hard-coded,
while `issues` holds exactly one error-severity entry and no
warning-severity entry. -/
theorem placeholder_counts_mismatch :
    (perform_accessibility_scan "12345"
        { pages := true, assignments := true, announcements := true,
          modules := false } "2026-10-12T00:00:00").errors = 3 ∧
    (perform_accessibility_scan "12345"
        { pages := true, assignments := true, announcements := true,
          modules := false } "2026-10-12T00:00:00").warnings = 8 ∧
    ((perform_accessibility_scan "12345"
        { pages := true, assignments := true, announcements := true,
          modules := false } "2026-10-12T00:00:00").issues.filter
      fun i => i.type = "error").length = 1 ∧
    ((perform_accessibility_scan "12345"
        { pages := true, assignments := true, announcements := true,
          modules := false } "2026-10-12T00:00:00").issues.filter
      fun i => i.type = "warning").length = 0 := by
  decide

/-- C4: `GET /api/scan/<scan_id>` fabricates an HTTP 200 "completed"
result for a scanId for which no scan was ever started, instead of a
not-found response. -/
theorem scan_lookup_fabricates_completed :
    get_scan_results "never-started-scan"
      = (200, { scan_id := "never-started-scan", status := "completed",
                results := [] }) :=
  rfl

/-- Counterexample to C5: two runs of the scan on the same course and the
same options do not produce the same payload — the `timestamp` field
records the clock reading of the run, so the payloads differ. -/
theorem scan_payload_run_dependent :
    perform_accessibility_scan "12345"
        { pages := true, assignments := true, announcements := true,
          modules := false } "2026-10-12T00:00:00"
      ≠ perform_accessibility_scan "12345"
        { pages := true, assignments := true, announcements := true,
          modules := false } "2026-10-12T00:00:01" := by
  decide

/-- C5 (amended): two runs of the scan on the same course and the same
options yield the same issue sequence (same order, same content) and the
same counts; every payload field agrees except `timestamp`, which records
the run's clock reading. -/
theorem scan_deterministic_except_timestamp :
    ∀ (c : String) (o : ScanOptions) (t1 t2 : String),
      (perform_accessibility_scan c o t1).issues
        = (perform_accessibility_scan c o t2).issues ∧
      (perform_accessibility_scan c o t1).passed
        = (perform_accessibility_scan c o t2).passed ∧
      (perform_accessibility_scan c o t1).warnings
        = (perform_accessibility_scan c o t2).warnings ∧
      (perform_accessibility_scan c o t1).errors
        = (perform_accessibility_scan c o t2).errors ∧
      (perform_accessibility_scan c o t1).timestamp = t1 :=
  fun _ _ _ _ => ⟨rfl, rfl, rfl, rfl, rfl⟩

/-- C7: the settings put/get round-trip fails — `save_user_settings`
stores nothing and `get_user_settings` returns the hard-coded defaults,
so after putting a non-default Settings record the subsequent get does
not return it. -/
theorem settings_roundtrip_broken :
    save_user_settings "user-1"
      { scanDepth := "deep", wcagLevel := "A", emailNotifications := true,
        autoScan := true, reportFormat := "csv", includeScreenshots := true }
      = () ∧
    get_user_settings "user-1"
      ≠ { scanDepth := "deep", wcagLevel := "A", emailNotifications := true,
          autoScan := true, reportFormat := "csv",
          includeScreenshots := true } :=
  ⟨rfl, by decide⟩

/-- C8: each content-type flag omitted from the `POST /api/scan` body
defaults to `pages = true`, `assignments = true`, `announcements = true`,
`modules = false`. -/
theorem scan_options_default_flags :
    ∀ (b : ScanRequestBody),
      (b.pages = none → (scan_options_of b).pages = true) ∧
      (b.assignments = none → (scan_options_of b).assignments = true) ∧
      (b.announcements = none → (scan_options_of b).announcements = true) ∧
      (b.modules = none → (scan_options_of b).modules = false) := by
  intro b
  refine ⟨?_, ?_, ?_, ?_⟩ <;> intro h <;> simp [scan_options_of, h]

/-- Witness for C8: a body omitting every flag yields the documented
default ScanOptions. -/
theorem scan_options_default_flags_witness :
    (scan_options_of
      { courseId := some "12345", pages := none, assignments := none,
        announcements := none, modules := none }).pages = true ∧
    (scan_options_of
      { courseId := some "12345", pages := none, assignments := none,
        announcements := none, modules := none }).assignments = true ∧
    (scan_options_of
      { courseId := some "12345", pages := none, assignments := none,
        announcements := none, modules := none }).announcements = true ∧
    (scan_options_of
      { courseId := some "12345", pages := none, assignments := none,
        announcements := none, modules := none }).modules = false :=
  ⟨(scan_options_default_flags _).1 rfl,
   (scan_options_default_flags _).2.1 rfl,
   (scan_options_default_flags _).2.2.1 rfl,
   (scan_options_default_flags _).2.2.2 rfl⟩

/-- C9: the `POST /api/scan` handler uses the session's course id whenever
it holds a non-empty one, even if the body supplies a different courseId;
the body's courseId is used only when the session's is missing (or empty,
which Python truthiness treats as missing); and when neither source yields
a course id the handler returns HTTP 400 with error "Course ID required"
and performs no scan (the response carries no scan results). -/
theorem course_id_precedence :
    ∀ (sess : Option String) (b : ScanRequestBody) (now : String),
      (∀ s, sess = some s → s ≠ "" →
        run_accessibility_scan sess b now
          = .ok (perform_accessibility_scan s (scan_options_of b) now)) ∧
      ((sess = none ∨ sess = some "") →
        ∀ c, b.courseId = some c → c ≠ "" →
        run_accessibility_scan sess b now
          = .ok (perform_accessibility_scan c (scan_options_of b) now)) ∧
      ((sess = none ∨ sess = some "") →
        (b.courseId = none ∨ b.courseId = some "") →
        run_accessibility_scan sess b now
          = .badRequest "Course ID required") := by
  intro sess b now
  refine ⟨?_, ?_, ?_⟩
  · intro s hs hne
    subst hs
    simp [run_accessibility_scan, effective_course_id, truthy, hne]
  · rintro (rfl | rfl) c hc hcne <;>
      simp [run_accessibility_scan, effective_course_id, truthy, hc, hcne]
  · rintro (rfl | rfl) (hc | hc) <;>
      simp [run_accessibility_scan, effective_course_id, truthy, hc]

/-- Witness for C9: with both a session course id and a different body
courseId the scan uses the session's; with no session course id the body's
is used; with neither the handler answers 400 "Course ID required". -/
theorem course_id_precedence_witness :
    (run_accessibility_scan (some "session-course")
        { courseId := some "body-course", pages := none, assignments := none,
          announcements := none, modules := none } "2026-10-12T00:00:00"
      = .ok (perform_accessibility_scan "session-course"
          (scan_options_of
            { courseId := some "body-course", pages := none,
              assignments := none, announcements := none, modules := none })
          "2026-10-12T00:00:00")) ∧
    (run_accessibility_scan none
        { courseId := some "body-course", pages := none, assignments := none,
          announcements := none, modules := none } "2026-10-12T00:00:00"
      = .ok (perform_accessibility_scan "body-course"
          (scan_options_of
            { courseId := some "body-course", pages := none,
              assignments := none, announcements := none, modules := none })
          "2026-10-12T00:00:00")) ∧
    (run_accessibility_scan none
        { courseId := none, pages := none, assignments := none,
          announcements := none, modules := none } "2026-10-12T00:00:00"
      = .badRequest "Course ID required") :=
  ⟨(course_id_precedence (some "session-course")
      { courseId := some "body-course", pages := none, assignments := none,
        announcements := none, modules := none }
      "2026-10-12T00:00:00").1 "session-course" rfl (by decide),
   (course_id_precedence none
      { courseId := some "body-course", pages := none, assignments := none,
        announcements := none, modules := none }
      "2026-10-12T00:00:00").2.1 (Or.inl rfl) "body-course" rfl (by decide),
   (course_id_precedence none
      { courseId := none, pages := none, assignments := none,
        announcements := none, modules := none }
      "2026-10-12T00:00:00").2.2 (Or.inl rfl) (Or.inl rfl)⟩

/-- C10: for every scan id and every requested format (defaulting to
"pdf" when the body omits it), `POST /api/export/<scan_id>` answers
HTTP 200 with `success = true` and
`download_url = "/downloads/report_" ++ scan_id ++ "." ++ format`, with
no check that the scan exists and no validation of the format string. -/
theorem export_report_unvalidated :
    ∀ (scan_id : String) (data : ExportRequestBody),
      export_report scan_id data
        = (200, { success := true
                  download_url := "/downloads/report_" ++ scan_id ++ "."
                    ++ data.format.getD "pdf" }) :=
  fun _ _ => rfl
